import Mathlib

set_option maxRecDepth 16384

/-!
Shallow embedding of `src/app.py` of the Automobile-Supply-Chain-Management
backend: a Flask gateway with four write endpoints (`/createOrder`,
`/depositFunds`, `/markShipped`, `/confirmDelivery`) that build, sign and
submit ledger transactions, and one read endpoint (`/getOrder/<id>`).

Modelling conventions:
* JSON scalar values are modelled by `JsonValue`; JSON numbers are modelled
  as exact rationals (the decimal literal's value).
* Python truthiness (`if not x`) is `pyTruthy` on `Option JsonValue`
  (`data.get(key)` returns `None` for an absent key).
* `w3.to_wei` / `w3.fromWei` follow the eth_utils semantics the code calls
  into: `to_wei` multiplies by the unit value and raises (here: returns
  `Except.error`) when the result is negative or not an integer, and raises
  a parse error on a non-numeric string; `fromWei` is exact division.
* The chain client (`w3` plus the contract object and the signing account)
  is a record of stubbed responses, each an `Except String` value so a node
  fault, signing fault or rejection can be simulated; each handler returns
  its HTTP-level outcome together with the ordered trace of chain
  interactions it performed.
* An exception escaping a handler (raised outside the `try` block) is the
  outcome `Outcome.uncaught`; Flask would not produce either of the
  handler's own JSON response shapes for it.
-/

deriving instance DecidableEq for Except

/-- A JSON scalar value as Python sees it after `request.get_json()`. -/
inductive JsonValue where
  | jnull : JsonValue
  | jbool : Bool → JsonValue
  | jnum : ℚ → JsonValue
  | jstr : String → JsonValue
deriving DecidableEq, Repr

/-- Python truthiness of a JSON scalar: `None`, `False`, `0`, `""` are falsy. -/
def truthy : JsonValue → Bool
  | .jnull => false
  | .jbool b => b
  | .jnum q => decide (q ≠ 0)
  | .jstr s => decide (s ≠ "")

/-- Truthiness of `data.get(key)`: an absent key gives `None`, which is falsy. -/
def pyTruthy : Option JsonValue → Bool
  | none => false
  | some v => truthy v

/-- Digit run check for the decimal-string model. -/
def isDigits (l : List Char) : Bool := l.all (fun c => c.isDigit)

/-- Numeric value of a digit run. -/
def digitsVal (l : List Char) : ℕ :=
  l.foldl (fun a c => a * 10 + (c.toNat - 48)) 0

/-- Split a character list at each dot. -/
def splitOnDot : List Char → List (List Char)
  | [] => [[]]
  | c :: rest =>
      let r := splitOnDot rest
      if c = '.' then [] :: r
      else
        match r with
        | [] => [[c]]
        | h :: t => (c :: h) :: t

/-- Digits and fractional length of an unsigned decimal literal (`"5"`,
`"0.5"`, `".5"`, `"1."`), as `decimal.Decimal` accepts them: the literal
with digits `d` and `k` fractional places denotes `d / 10 ^ k`; `none`
models `decimal.InvalidOperation`. -/
def parseUnsignedParts (l : List Char) : Option (ℕ × ℕ) :=
  match splitOnDot l with
  | [a] => if a ≠ [] ∧ isDigits a then some (digitsVal a, 0) else none
  | [a, b] =>
      if (a ≠ [] ∨ b ≠ []) ∧ isDigits a ∧ isDigits b then
        some (digitsVal a * 10 ^ b.length + digitsVal b, b.length)
      else none
  | _ => none

/-- Split a character list at the first exponent marker `e`/`E`, returning
the mantissa and, when present, the exponent characters. -/
def splitOnExp : List Char → List Char × Option (List Char)
  | [] => ([], none)
  | c :: rest =>
      if c = 'e' ∨ c = 'E' then ([], some rest)
      else
        match splitOnExp rest with
        | (a, b) => (c :: a, b)

/-- Value of an exponent part: optionally signed, nonempty digits
(`"5"`, `"+5"`, `"-5"`), as `decimal.Decimal` accepts after `e`/`E`. -/
def parseExponent (l : List Char) : Option ℤ :=
  match l with
  | '+' :: rest =>
      if rest ≠ [] ∧ isDigits rest then some ((digitsVal rest : ℤ)) else none
  | '-' :: rest =>
      if rest ≠ [] ∧ isDigits rest then some (-(digitsVal rest : ℤ)) else none
  | _ => if l ≠ [] ∧ isDigits l then some ((digitsVal l : ℤ)) else none

/-- Value of an unsigned decimal literal with an optional exponent part
(`"0.5"`, `"1e5"`, `"1.5E-3"`): digits `d` with `k` fractional places and
exponent `e` denote `d * 10 ^ e / 10 ^ k`. -/
def parseUnsignedDecimal (l : List Char) (neg : Bool) : Option ℚ :=
  match splitOnExp l with
  | (mant, expPart) =>
    match parseUnsignedParts mant, expPart with
    | some p, none =>
        some (mkRat (cond neg (-(p.1 : ℤ)) (p.1 : ℤ)) (10 ^ p.2))
    | some p, some ec =>
        match parseExponent ec with
        | some e =>
            if 0 ≤ e then
              some (mkRat
                (cond neg (-((p.1 * 10 ^ e.toNat : ℕ) : ℤ))
                  ((p.1 * 10 ^ e.toNat : ℕ) : ℤ))
                (10 ^ p.2))
            else
              some (mkRat (cond neg (-(p.1 : ℤ)) (p.1 : ℤ))
                (10 ^ (p.2 + (-e).toNat)))
        | none => none
    | none, _ => none

/-- Value of a decimal literal with an optional leading sign. -/
def parseDecimal (s : String) : Option ℚ :=
  match s.data with
  | '-' :: rest => parseUnsignedDecimal rest true
  | '+' :: rest => parseUnsignedDecimal rest false
  | l => parseUnsignedDecimal l false

/-- The currency units `app.py` uses with `w3.to_wei`. -/
inductive EthUnit where
  | ether : EthUnit
  | gwei : EthUnit
deriving DecidableEq, Repr

/-- Smallest-unit multiplier of a currency unit. -/
def EthUnit.unitValue : EthUnit → ℕ
  | .ether => 10 ^ 18
  | .gwei => 10 ^ 9

/-- Core of `w3.to_wei` on an exact rational (eth_utils `currency.to_wei`):
multiply by the unit value, raise `ValueError` when the result is negative
or exceeds `2 ^ 256 - 1`, and otherwise return `int(result_value)` — the
truncation of the product, which for the nonnegative results that survive
the range check is its floor. Phrased on the numerator and denominator:
`0 ≤ q` is `0 ≤ q.num`, `q * u ≤ 2 ^ 256 - 1` is
`q.num * u ≤ (2 ^ 256 - 1) * q.den`, and the floor of `q * u` is the
integer division `(q.num * u) / q.den` (the bridge to `q * u` in `ℚ` is
`to_wei_q_eq_ok`). -/
def to_wei_q (q : ℚ) (u : EthUnit) : Except String ℤ :=
  if 0 ≤ q.num ∧ q.num * (u.unitValue : ℤ) ≤ (2 ^ 256 - 1) * (q.den : ℤ) then
    .ok ((q.num * (u.unitValue : ℤ)) / (q.den : ℤ))
  else .error "ValueError: Resulting wei value must be between 1 and 2 ** 256 - 1"

/-- Model of `w3.to_wei(number, unit)` on a JSON scalar (eth_utils
`currency.to_wei`): ints and floats carry their exact decimal value, strings
are parsed as decimals (a non-numeric string raises
`decimal.InvalidOperation`), and other types raise `TypeError`. -/
def to_wei (v : JsonValue) (u : EthUnit) : Except String ℤ :=
  match v with
  | .jnum q => to_wei_q q u
  | .jstr s =>
      match parseDecimal s with
      | some q => to_wei_q q u
      | none => .error "decimal.InvalidOperation"
  | _ => .error "TypeError: Unsupported type"

/-- Model of `w3.to_wei` applied to `data.get(key)` (absent key: `None`,
which raises `TypeError` in eth_utils). -/
def to_wei_opt (v : Option JsonValue) (u : EthUnit) : Except String ℤ :=
  match v with
  | none => .error "TypeError: Unsupported type"
  | some jv => to_wei jv u

/-- Model of `w3.fromWei(n, "ether")`: exact division by the unit value. -/
def fromWei (n : ℤ) : ℚ := (n : ℚ) / (10 ^ 18 : ℚ)

/-- The encoded contract function call placed in a transaction
(`contract.functions.<f>(args)`); arguments taken from the JSON body are
kept as the raw values the handler passed. -/
inductive FunctionCall where
  | createOrder : Option JsonValue → ℤ → Option JsonValue → String → FunctionCall
  | depositFunds : Option JsonValue → FunctionCall
  | markShipped : Option JsonValue → FunctionCall
  | confirmDelivery : Option JsonValue → FunctionCall
deriving DecidableEq, Repr

/-- A built transaction envelope, as produced by `build_transaction`:
chain id, gas limit, gas price, nonce, attached value (0 when the handler
supplies none) and the encoded function call. -/
structure Tx where
  chainId : ℕ
  gas : ℕ
  gasPrice : ℤ
  nonce : ℕ
  value : ℤ
  callData : FunctionCall
deriving DecidableEq, Repr

/-- One chain interaction performed by a handler, in order. -/
inductive ChainCall where
  | getTransactionCount : ChainCall
  | chainIdLookup : ChainCall
  | gasPriceLookup : ChainCall
  | estimateGas : Option JsonValue → ℤ → ChainCall
  | signTransaction : Tx → ChainCall
  | sendRawTransaction : ChainCall
  | callOrders : ℕ → ChainCall
deriving DecidableEq, Repr

/-- The tuple returned by the read-only call `contract.functions.orders(id)`:
(id, buyer, supplier, amount in smallest units, state code, vin, document
reference), indexed 0..6 by `get_order`. -/
structure OrderTuple where
  f0 : ℕ
  f1 : String
  f2 : String
  f3 : ℤ
  f4 : ℕ
  f5 : String
  f6 : String
deriving DecidableEq, Repr

/-- Stubbed chain client: the behaviour of each remote/node-backed operation
the handlers invoke (`w3.eth.*`, `estimate_gas`, signing, submission and the
read-only `orders` call), each able to fail with a message. -/
structure Chain where
  get_transaction_count : Except String ℕ
  chain_id : Except String ℕ
  gas_price : Except String ℤ
  estimate_gas : Option JsonValue → ℤ → Except String ℕ
  sign_transaction : Tx → Except String Tx
  send_raw_transaction : Tx → Except String String
  call_orders : ℕ → Except String OrderTuple

/-- Outcome of one handler invocation, at the granularity the HTTP layer
sees: the 400 validation shape, the 500 error shape, the success shape with
a transaction hash, the `get_order` success body, or an exception that
escaped the handler. -/
inductive Outcome where
  | validationError : String → Outcome
  | chainError : String → Outcome
  | success : String → Outcome
  | orderView : List (String × JsonValue) → Outcome
  | uncaught : String → Outcome
deriving DecidableEq, Repr

/-- HTTP status code the handler itself returns (`none` for an exception
that escapes the handler: no handler-produced response exists then). -/
def statusOf : Outcome → Option ℕ
  | .validationError _ => some 400
  | .chainError _ => some 500
  | .success _ => some 200
  | .orderView _ => some 200
  | .uncaught _ => none

/-- JSON body of `POST /createOrder`, fields via `data.get`. -/
structure CreateOrderReq where
  supplier : Option JsonValue
  amount : Option JsonValue
  vin : Option JsonValue
deriving DecidableEq, Repr

/-- JSON body of `POST /depositFunds`, fields via `data.get`. -/
structure DepositFundsReq where
  orderId : Option JsonValue
  amount : Option JsonValue
deriving DecidableEq, Repr

/-- JSON body of `POST /markShipped` and `POST /confirmDelivery`. -/
structure OrderIdReq where
  orderId : Option JsonValue
deriving DecidableEq, Repr

/-- Handler `create_order` (`app.py` lines 35-72): validate truthiness of
the three fields, convert the amount with `to_wei` outside the `try`, then
inside the `try` fetch the nonce, build (fetching chain id and gas price in
the order the dict literal evaluates them, with fixed gas 300000), sign and
submit; any exception inside the `try` becomes the 500 error shape. -/
def create_order (w3 : Chain) (ISO_CID : String) (data : CreateOrderReq) :
    Outcome × List ChainCall :=
  if ¬ pyTruthy data.supplier ∨ ¬ pyTruthy data.amount ∨ ¬ pyTruthy data.vin then
    (.validationError "Missing required fields", [])
  else
    match to_wei_opt data.amount .ether with
    | .error e => (.uncaught e, [])
    | .ok amount_wei =>
      match w3.get_transaction_count with
      | .error e => (.chainError e, [.getTransactionCount])
      | .ok nonce =>
        match w3.chain_id with
        | .error e => (.chainError e, [.getTransactionCount, .chainIdLookup])
        | .ok cid =>
          match w3.gas_price with
          | .error e =>
              (.chainError e, [.getTransactionCount, .chainIdLookup, .gasPriceLookup])
          | .ok gp =>
            let tx : Tx :=
              { chainId := cid, gas := 300000, gasPrice := gp, nonce := nonce,
                value := 0,
                callData := .createOrder data.supplier amount_wei data.vin
                  ("ipfs://" ++ ISO_CID) }
            match w3.sign_transaction tx with
            | .error e =>
                (.chainError e,
                 [.getTransactionCount, .chainIdLookup, .gasPriceLookup,
                  .signTransaction tx])
            | .ok signed =>
              match w3.send_raw_transaction signed with
              | .error e =>
                  (.chainError e,
                   [.getTransactionCount, .chainIdLookup, .gasPriceLookup,
                    .signTransaction tx, .sendRawTransaction])
              | .ok h =>
                  (.success h,
                   [.getTransactionCount, .chainIdLookup, .gasPriceLookup,
                    .signTransaction tx, .sendRawTransaction])

/-- Handler `deposit_funds` (`app.py` lines 75-113): validate the two
fields, set `amount_wei = w3.to_wei("0.5", "ether")` (a constant, outside
the `try`), then inside the `try` fetch the nonce, estimate gas for
`depositFunds(order_id)` with the attached value, build (chain id lookup,
estimated gas, fixed gas price `w3.to_wei("5", "gwei")`, attached value),
sign and submit. -/
def deposit_funds (w3 : Chain) (data : DepositFundsReq) :
    Outcome × List ChainCall :=
  if ¬ pyTruthy data.orderId ∨ ¬ pyTruthy data.amount then
    (.validationError "Missing required fields", [])
  else
    match to_wei (.jstr "0.5") .ether with
    | .error e => (.uncaught e, [])
    | .ok amount_wei =>
      match w3.get_transaction_count with
      | .error e => (.chainError e, [.getTransactionCount])
      | .ok nonce =>
        match w3.estimate_gas data.orderId amount_wei with
        | .error e =>
            (.chainError e,
             [.getTransactionCount, .estimateGas data.orderId amount_wei])
        | .ok gas_estimate =>
          match w3.chain_id with
          | .error e =>
              (.chainError e,
               [.getTransactionCount, .estimateGas data.orderId amount_wei,
                .chainIdLookup])
          | .ok cid =>
            match to_wei (.jstr "5") .gwei with
            | .error e =>
                (.chainError e,
                 [.getTransactionCount, .estimateGas data.orderId amount_wei,
                  .chainIdLookup])
            | .ok gp =>
              let tx : Tx :=
                { chainId := cid, gas := gas_estimate, gasPrice := gp,
                  nonce := nonce, value := amount_wei,
                  callData := .depositFunds data.orderId }
              match w3.sign_transaction tx with
              | .error e =>
                  (.chainError e,
                   [.getTransactionCount, .estimateGas data.orderId amount_wei,
                    .chainIdLookup, .signTransaction tx])
              | .ok signed =>
                match w3.send_raw_transaction signed with
                | .error e =>
                    (.chainError e,
                     [.getTransactionCount, .estimateGas data.orderId amount_wei,
                      .chainIdLookup, .signTransaction tx, .sendRawTransaction])
                | .ok h =>
                    (.success h,
                     [.getTransactionCount, .estimateGas data.orderId amount_wei,
                      .chainIdLookup, .signTransaction tx, .sendRawTransaction])

/-- Handler `mark_shipped` (`app.py` lines 116-145): validate `orderId`,
then fetch the nonce, build `markShipped(order_id)` with fixed gas 300000
and the suggested gas price, sign and submit. -/
def mark_shipped (w3 : Chain) (data : OrderIdReq) : Outcome × List ChainCall :=
  if ¬ pyTruthy data.orderId then
    (.validationError "Missing required fields", [])
  else
    match w3.get_transaction_count with
    | .error e => (.chainError e, [.getTransactionCount])
    | .ok nonce =>
      match w3.chain_id with
      | .error e => (.chainError e, [.getTransactionCount, .chainIdLookup])
      | .ok cid =>
        match w3.gas_price with
        | .error e =>
            (.chainError e, [.getTransactionCount, .chainIdLookup, .gasPriceLookup])
        | .ok gp =>
          let tx : Tx :=
            { chainId := cid, gas := 300000, gasPrice := gp, nonce := nonce,
              value := 0, callData := .markShipped data.orderId }
          match w3.sign_transaction tx with
          | .error e =>
              (.chainError e,
               [.getTransactionCount, .chainIdLookup, .gasPriceLookup,
                .signTransaction tx])
          | .ok signed =>
            match w3.send_raw_transaction signed with
            | .error e =>
                (.chainError e,
                 [.getTransactionCount, .chainIdLookup, .gasPriceLookup,
                  .signTransaction tx, .sendRawTransaction])
            | .ok h =>
                (.success h,
                 [.getTransactionCount, .chainIdLookup, .gasPriceLookup,
                  .signTransaction tx, .sendRawTransaction])

/-- Handler `confirm_delivery` (`app.py` lines 148-177): identical shape to
`mark_shipped` with the `confirmDelivery(order_id)` call. -/
def confirm_delivery (w3 : Chain) (data : OrderIdReq) : Outcome × List ChainCall :=
  if ¬ pyTruthy data.orderId then
    (.validationError "Missing required fields", [])
  else
    match w3.get_transaction_count with
    | .error e => (.chainError e, [.getTransactionCount])
    | .ok nonce =>
      match w3.chain_id with
      | .error e => (.chainError e, [.getTransactionCount, .chainIdLookup])
      | .ok cid =>
        match w3.gas_price with
        | .error e =>
            (.chainError e, [.getTransactionCount, .chainIdLookup, .gasPriceLookup])
        | .ok gp =>
          let tx : Tx :=
            { chainId := cid, gas := 300000, gasPrice := gp, nonce := nonce,
              value := 0, callData := .confirmDelivery data.orderId }
          match w3.sign_transaction tx with
          | .error e =>
              (.chainError e,
               [.getTransactionCount, .chainIdLookup, .gasPriceLookup,
                .signTransaction tx])
          | .ok signed =>
            match w3.send_raw_transaction signed with
            | .error e =>
                (.chainError e,
                 [.getTransactionCount, .chainIdLookup, .gasPriceLookup,
                  .signTransaction tx, .sendRawTransaction])
            | .ok h =>
                (.success h,
                 [.getTransactionCount, .chainIdLookup, .gasPriceLookup,
                  .signTransaction tx, .sendRawTransaction])

/-- A deterministic, all-successful stub chain client with transaction
count `n`: chain id 1, suggested gas price 20, gas estimate 21000,
signing returns the envelope, submission returns a fixed hash, and the
`orders` read returns a fixed tuple. -/
def stubChain (n : ℕ) : Chain where
  get_transaction_count := .ok n
  chain_id := .ok 1
  gas_price := .ok 20
  estimate_gas := fun _ _ => .ok 21000
  sign_transaction := fun tx => .ok tx
  send_raw_transaction := fun _ => .ok "0xstubhash"
  call_orders := fun oid =>
    .ok ⟨oid, "0xbuyer", "0xsup", 1000000000000000000, 0, "VIN123456", "ipfs://cid"⟩

/-- Handler `get_order` (`app.py` lines 180-199): one read-only
`orders(order_id)` call; on success a JSON body of seven keys with the
amount converted by `fromWei`; any exception becomes the 500 error shape. -/
def get_order (w3 : Chain) (order_id : ℕ) : Outcome × List ChainCall :=
  match w3.call_orders order_id with
  | .error e => (.chainError e, [.callOrders order_id])
  | .ok order =>
      (.orderView
        [("orderId", .jnum (order.f0 : ℚ)),
         ("buyer", .jstr order.f1),
         ("supplier", .jstr order.f2),
         ("amount", .jnum (fromWei order.f3)),
         ("state", .jnum (order.f4 : ℚ)),
         ("vin", .jstr order.f5),
         ("isoTs16949Doc", .jstr order.f6)],
       [.callOrders order_id])

/-- A stub chain client whose node connection is down: every remote
operation fails with the same message. -/
def downChain : Chain where
  get_transaction_count := .error "node down"
  chain_id := .error "node down"
  gas_price := .error "node down"
  estimate_gas := fun _ _ => .error "node down"
  sign_transaction := fun _ => .error "node down"
  send_raw_transaction := fun _ => .error "node down"
  call_orders := fun _ => .error "node down"

/-- A stub chain client whose lookups succeed but whose signing step
fails. -/
def signFailChain : Chain where
  get_transaction_count := .ok 5
  chain_id := .ok 1
  gas_price := .ok 20
  estimate_gas := fun _ _ => .ok 21000
  sign_transaction := fun _ => .error "bad key"
  send_raw_transaction := fun _ => .error "unreachable"
  call_orders := fun _ => .error "unreachable"

/-- A stub chain client that accepts everything up to submission and then
rejects the transaction (simulated node revert). -/
def revertChain : Chain where
  get_transaction_count := .ok 5
  chain_id := .ok 1
  gas_price := .ok 20
  estimate_gas := fun _ _ => .ok 21000
  sign_transaction := fun tx => .ok tx
  send_raw_transaction := fun _ => .error "execution reverted"
  call_orders := fun _ => .error "execution reverted"

/-- Number of keys in a `get_order` success body, `none` for any other
outcome. -/
def orderViewLength : Outcome → Option ℕ
  | .orderView l => some l.length
  | _ => none

/-- Characterization of a successful `to_wei` conversion in terms of exact
rational arithmetic: it succeeds with value `w` exactly when the input is
nonnegative, the product with the unit value is within the wei range, and
`w` is the floor (Python `int()` truncation of a nonnegative value) of
that product. -/
theorem to_wei_q_eq_ok (q : ℚ) (u : EthUnit) (w : ℤ) :
    to_wei_q q u = .ok w ↔
      0 ≤ q ∧ q * (u.unitValue : ℚ) ≤ 2 ^ 256 - 1 ∧
        w = ⌊q * (u.unitValue : ℚ)⌋ := by
  have hdq : (0 : ℚ) < (q.den : ℚ) := by exact_mod_cast q.den_pos
  have h1 : (q.num : ℚ) = q * (q.den : ℚ) :=
    (div_eq_iff (ne_of_gt hdq)).mp (Rat.num_div_den q)
  have hval : q * (u.unitValue : ℚ) =
      ((q.num * (u.unitValue : ℤ) : ℤ) : ℚ) / ((q.den : ℕ) : ℚ) := by
    rw [eq_div_iff (ne_of_gt hdq)]
    push_cast
    rw [h1]
    ring
  have hfloor : ⌊q * (u.unitValue : ℚ)⌋ =
      (q.num * (u.unitValue : ℤ)) / (q.den : ℤ) := by
    rw [hval, Rat.floor_intCast_div_natCast]
  have hb : (q.num * (u.unitValue : ℤ) ≤ (2 ^ 256 - 1) * (q.den : ℤ)) ↔
      q * (u.unitValue : ℚ) ≤ 2 ^ 256 - 1 := by
    rw [hval, div_le_iff₀ hdq]
    constructor
    · intro h
      exact_mod_cast h
    · intro h
      exact_mod_cast h
  unfold to_wei_q
  by_cases hc : 0 ≤ q.num ∧
      q.num * (u.unitValue : ℤ) ≤ (2 ^ 256 - 1) * (q.den : ℤ)
  · rw [if_pos hc]
    simp only [Except.ok.injEq]
    constructor
    · intro h
      refine ⟨Rat.num_nonneg.mp hc.1, hb.mp hc.2, ?_⟩
      rw [hfloor]
      exact h.symm
    · rintro ⟨-, -, hw⟩
      rw [hw, hfloor]
  · rw [if_neg hc]
    constructor
    · intro h
      exact absurd h (by simp)
    · rintro ⟨hq, hle, -⟩
      exact absurd ⟨Rat.num_nonneg.mpr hq, hb.mpr hle⟩ hc

/-- Any transaction handed to signing by `create_order` was built from a
successful amount conversion and fresh nonce, chain-id and gas-price
lookups, with fixed gas 300000, no attached value and the encoded
`createOrder` call carrying the converted amount and the configured
document reference. -/
theorem create_order_signed_tx (w3 : Chain) (ISO_CID : String)
    (data : CreateOrderReq) (tx : Tx)
    (htx : ChainCall.signTransaction tx ∈ (create_order w3 ISO_CID data).2) :
    ∃ a n cid gp, to_wei_opt data.amount .ether = .ok a ∧
      w3.get_transaction_count = .ok n ∧ w3.chain_id = .ok cid ∧
      w3.gas_price = .ok gp ∧
      tx = { chainId := cid, gas := 300000, gasPrice := gp, nonce := n,
             value := 0,
             callData := .createOrder data.supplier a data.vin
               ("ipfs://" ++ ISO_CID) } := by
  unfold create_order at htx
  split at htx
  · simp at htx
  · split at htx
    next e heq => simp at htx
    next a heq =>
      split at htx
      next e heq2 => simp at htx
      next n heq2 =>
        split at htx
        next e heq3 => simp at htx
        next cid heq3 =>
          split at htx
          next e heq4 => simp at htx
          next gp heq4 =>
            dsimp only at htx
            split at htx
            next e heq5 =>
              simp at htx
              exact ⟨a, n, cid, gp, heq, heq2, heq3, heq4, htx⟩
            next s heq5 =>
              split at htx
              next e heq6 =>
                simp at htx
                exact ⟨a, n, cid, gp, heq, heq2, heq3, heq4, htx⟩
              next h heq6 =>
                simp at htx
                exact ⟨a, n, cid, gp, heq, heq2, heq3, heq4, htx⟩

/-- Any transaction handed to signing by `deposit_funds` carries the fixed
attached value `to_wei("0.5", "ether") = 500000000000000000`, the
per-call gas estimate for `depositFunds(order_id)` with that value, the
fixed gas price `to_wei("5", "gwei") = 5000000000`, a fresh nonce, and an
encoded call that does not mention the caller-supplied amount; moreover
the per-call estimate with the attached value appears in the trace. -/
theorem deposit_funds_signed_tx (w3 : Chain) (data : DepositFundsReq) (tx : Tx)
    (htx : ChainCall.signTransaction tx ∈ (deposit_funds w3 data).2) :
    ∃ n est cid,
      w3.get_transaction_count = .ok n ∧
      w3.estimate_gas data.orderId 500000000000000000 = .ok est ∧
      w3.chain_id = .ok cid ∧
      tx = { chainId := cid, gas := est, gasPrice := 5000000000, nonce := n,
             value := 500000000000000000,
             callData := .depositFunds data.orderId } ∧
      ChainCall.estimateGas data.orderId 500000000000000000 ∈
        (deposit_funds w3 data).2 := by
  have h05 : to_wei (JsonValue.jstr "0.5") EthUnit.ether =
      Except.ok 500000000000000000 := by decide
  have h5g : to_wei (JsonValue.jstr "5") EthUnit.gwei =
      Except.ok 5000000000 := by decide
  unfold deposit_funds at htx
  split at htx
  next hval => simp at htx
  next hval =>
    simp only [not_or, Bool.not_eq_true, not_not] at hval
    split at htx
    next e heq => simp at htx
    next amount_wei heq =>
      rw [h05] at heq
      injection heq with heq
      subst heq
      split at htx
      next e heq2 => simp at htx
      next n heq2 =>
        split at htx
        next e heq3 => simp at htx
        next est heq3 =>
          split at htx
          next e heq4 => simp at htx
          next cid heq4 =>
            split at htx
            next e heq5 => rw [h5g] at heq5; simp at heq5
            next gp heq5 =>
              rw [h5g] at heq5
              injection heq5 with heq5
              subst heq5
              dsimp only at htx
              split at htx
              next e heq6 =>
                simp at htx
                refine ⟨n, est, cid, heq2, heq3, heq4, htx, ?_⟩
                simp [deposit_funds, hval.1, hval.2, h05, heq2, heq3, heq4, h5g, heq6]
              next s heq6 =>
                split at htx
                next e heq7 =>
                  simp at htx
                  refine ⟨n, est, cid, heq2, heq3, heq4, htx, ?_⟩
                  simp [deposit_funds, hval.1, hval.2, h05, heq2, heq3, heq4, h5g, heq6, heq7]
                next h heq7 =>
                  simp at htx
                  refine ⟨n, est, cid, heq2, heq3, heq4, htx, ?_⟩
                  simp [deposit_funds, hval.1, hval.2, h05, heq2, heq3, heq4, h5g, heq6, heq7]

/-- Any transaction handed to signing by `mark_shipped` was built from fresh
nonce, chain-id and gas-price lookups, with fixed gas 300000, no attached
value and the encoded `markShipped` call. -/
theorem mark_shipped_signed_tx (w3 : Chain) (data : OrderIdReq) (tx : Tx)
    (htx : ChainCall.signTransaction tx ∈ (mark_shipped w3 data).2) :
    ∃ n cid gp, w3.get_transaction_count = .ok n ∧ w3.chain_id = .ok cid ∧
      w3.gas_price = .ok gp ∧
      tx = { chainId := cid, gas := 300000, gasPrice := gp, nonce := n,
             value := 0, callData := .markShipped data.orderId } := by
  unfold mark_shipped at htx
  split at htx
  · simp at htx
  · split at htx
    next e heq2 => simp at htx
    next n heq2 =>
      split at htx
      next e heq3 => simp at htx
      next cid heq3 =>
        split at htx
        next e heq4 => simp at htx
        next gp heq4 =>
          dsimp only at htx
          split at htx
          next e heq5 =>
            simp at htx
            exact ⟨n, cid, gp, heq2, heq3, heq4, htx⟩
          next s heq5 =>
            split at htx
            next e heq6 =>
              simp at htx
              exact ⟨n, cid, gp, heq2, heq3, heq4, htx⟩
            next h heq6 =>
              simp at htx
              exact ⟨n, cid, gp, heq2, heq3, heq4, htx⟩

/-- Any transaction handed to signing by `confirm_delivery` was built from
fresh nonce, chain-id and gas-price lookups, with fixed gas 300000, no
attached value and the encoded `confirmDelivery` call. -/
theorem confirm_delivery_signed_tx (w3 : Chain) (data : OrderIdReq) (tx : Tx)
    (htx : ChainCall.signTransaction tx ∈ (confirm_delivery w3 data).2) :
    ∃ n cid gp, w3.get_transaction_count = .ok n ∧ w3.chain_id = .ok cid ∧
      w3.gas_price = .ok gp ∧
      tx = { chainId := cid, gas := 300000, gasPrice := gp, nonce := n,
             value := 0, callData := .confirmDelivery data.orderId } := by
  unfold confirm_delivery at htx
  split at htx
  · simp at htx
  · split at htx
    next e heq2 => simp at htx
    next n heq2 =>
      split at htx
      next e heq3 => simp at htx
      next cid heq3 =>
        split at htx
        next e heq4 => simp at htx
        next gp heq4 =>
          dsimp only at htx
          split at htx
          next e heq5 =>
            simp at htx
            exact ⟨n, cid, gp, heq2, heq3, heq4, htx⟩
          next s heq5 =>
            split at htx
            next e heq6 =>
              simp at htx
              exact ⟨n, cid, gp, heq2, heq3, heq4, htx⟩
            next h heq6 =>
              simp at htx
              exact ⟨n, cid, gp, heq2, heq3, heq4, htx⟩

/-- C1: for every DepositFunds request that passes validation, the value
attached to the built transaction envelope equals the fixed deposit amount
`to_wei("0.5", "ether") = 500000000000000000` smallest units, regardless of
the caller-supplied amount field, and the encoded call carries only the
order id, never the caller's amount. -/
theorem C1_depositFunds_fixed_value (w3 : Chain) (data : DepositFundsReq)
    (_h1 : pyTruthy data.orderId = true) (_h2 : pyTruthy data.amount = true)
    (tx : Tx) (htx : ChainCall.signTransaction tx ∈ (deposit_funds w3 data).2) :
    tx.value = 500000000000000000 ∧
    to_wei (.jstr "0.5") .ether = .ok tx.value ∧
    tx.callData = .depositFunds data.orderId := by
  obtain ⟨n, est, cid, -, -, -, htx2, -⟩ := deposit_funds_signed_tx w3 data tx htx
  subst htx2
  refine ⟨rfl, ?_, rfl⟩
  show to_wei (.jstr "0.5") .ether = .ok 500000000000000000
  decide

/-- Witness for C1 at a concrete valid request against the stub chain:
the caller asks to deposit 7 units, the envelope still carries the fixed
500000000000000000 smallest units. -/
theorem C1_depositFunds_fixed_value_witness :
    ({ chainId := 1, gas := 21000, gasPrice := 5000000000, nonce := 5,
       value := 500000000000000000,
       callData := .depositFunds (some (.jnum 1)) } : Tx).value =
        500000000000000000 ∧
    to_wei (.jstr "0.5") .ether = .ok
      ({ chainId := 1, gas := 21000, gasPrice := 5000000000, nonce := 5,
         value := 500000000000000000,
         callData := .depositFunds (some (.jnum 1)) } : Tx).value ∧
    ({ chainId := 1, gas := 21000, gasPrice := 5000000000, nonce := 5,
       value := 500000000000000000,
       callData := .depositFunds (some (.jnum 1)) } : Tx).callData =
      .depositFunds (some (.jnum 1)) :=
  C1_depositFunds_fixed_value (stubChain 5) ⟨some (.jnum 1), some (.jnum 7)⟩
    (by decide) (by decide) _ (by decide)

/-- C2: for each of the four write transitions, a request whose required
fields do not all pass the truthiness check (in particular any request
missing a required field, since an absent key is falsy) returns the
`ValidationError` response with HTTP 400 and performs zero chain
interactions: the trace of chain calls is empty, so there is no nonce
fetch, no gas lookup or estimate, no signing and no submission. -/
theorem C2_missing_field_no_chain_calls (w3 : Chain) (ISO_CID : String)
    (c : CreateOrderReq) (d : DepositFundsReq) (m cd : OrderIdReq)
    (hc : pyTruthy c.supplier = false ∨ pyTruthy c.amount = false ∨
      pyTruthy c.vin = false)
    (hd : pyTruthy d.orderId = false ∨ pyTruthy d.amount = false)
    (hm : pyTruthy m.orderId = false)
    (hcd : pyTruthy cd.orderId = false) :
    create_order w3 ISO_CID c = (.validationError "Missing required fields", []) ∧
    deposit_funds w3 d = (.validationError "Missing required fields", []) ∧
    mark_shipped w3 m = (.validationError "Missing required fields", []) ∧
    confirm_delivery w3 cd = (.validationError "Missing required fields", []) ∧
    statusOf (.validationError "Missing required fields") = some 400 := by
  refine ⟨?_, ?_, ?_, ?_, rfl⟩
  · unfold create_order
    rw [if_pos]
    simpa using hc
  · unfold deposit_funds
    rw [if_pos]
    simpa using hd
  · unfold mark_shipped
    rw [if_pos]
    simpa using hm
  · unfold confirm_delivery
    rw [if_pos]
    simpa using hcd

/-- Witness for C2: concrete requests each missing one required field,
against the all-successful stub chain, all rejected with no chain calls. -/
theorem C2_missing_field_no_chain_calls_witness :
    create_order (stubChain 0) "cid" ⟨none, some (.jnum 1), some (.jstr "V")⟩ =
      (.validationError "Missing required fields", []) ∧
    deposit_funds (stubChain 0) ⟨some (.jnum 1), none⟩ =
      (.validationError "Missing required fields", []) ∧
    mark_shipped (stubChain 0) ⟨none⟩ =
      (.validationError "Missing required fields", []) ∧
    confirm_delivery (stubChain 0) ⟨none⟩ =
      (.validationError "Missing required fields", []) ∧
    statusOf (.validationError "Missing required fields") = some 400 :=
  C2_missing_field_no_chain_calls (stubChain 0) "cid"
    ⟨none, some (.jnum 1), some (.jstr "V")⟩ ⟨some (.jnum 1), none⟩ ⟨none⟩ ⟨none⟩
    (Or.inl (by decide)) (Or.inr (by decide)) (by decide) (by decide)

/-- C9: for each write endpoint, a request whose required field is present
but falsy (order id 0, amount 0, empty supplier string, empty vin string)
is rejected exactly like an absent field: the `ValidationError` response
with message Missing required fields and HTTP 400, with no chain calls,
even though the field is present. -/
theorem C9_falsy_present_fields_rejected (w3 : Chain) (ISO_CID : String) :
    (∀ amt vin, create_order w3 ISO_CID ⟨some (.jstr ""), amt, vin⟩ =
      (.validationError "Missing required fields", [])) ∧
    (∀ sup vin, create_order w3 ISO_CID ⟨sup, some (.jnum 0), vin⟩ =
      (.validationError "Missing required fields", [])) ∧
    (∀ sup amt, create_order w3 ISO_CID ⟨sup, amt, some (.jstr "")⟩ =
      (.validationError "Missing required fields", [])) ∧
    (∀ amt, deposit_funds w3 ⟨some (.jnum 0), amt⟩ =
      (.validationError "Missing required fields", [])) ∧
    (∀ oid, deposit_funds w3 ⟨oid, some (.jnum 0)⟩ =
      (.validationError "Missing required fields", [])) ∧
    (mark_shipped w3 ⟨some (.jnum 0)⟩ =
      (.validationError "Missing required fields", [])) ∧
    (confirm_delivery w3 ⟨some (.jnum 0)⟩ =
      (.validationError "Missing required fields", [])) ∧
    statusOf (.validationError "Missing required fields") = some 400 := by
  refine ⟨?_, ?_, ?_, ?_, ?_, ?_, ?_, rfl⟩
  · intro amt vin
    unfold create_order
    rw [if_pos (Or.inl
      (show ¬ pyTruthy (some (JsonValue.jstr "")) = true by decide))]
  · intro sup vin
    unfold create_order
    rw [if_pos (Or.inr (Or.inl
      (show ¬ pyTruthy (some (JsonValue.jnum 0)) = true by decide)))]
  · intro sup amt
    unfold create_order
    rw [if_pos (Or.inr (Or.inr
      (show ¬ pyTruthy (some (JsonValue.jstr "")) = true by decide)))]
  · intro amt
    unfold deposit_funds
    rw [if_pos (Or.inl
      (show ¬ pyTruthy (some (JsonValue.jnum 0)) = true by decide))]
  · intro oid
    unfold deposit_funds
    rw [if_pos (Or.inr
      (show ¬ pyTruthy (some (JsonValue.jnum 0)) = true by decide))]
  · unfold mark_shipped
    rw [if_pos (by decide)]
  · unfold confirm_delivery
    rw [if_pos (by decide)]

/-- C10: in `create_order` the amount conversion `w3.to_wei` runs before
the `try` block, so a present but non-numeric amount string raises an
exception that escapes the handler: the result is neither the 400
validation shape nor the 500 chain-error shape, and no chain call is
made. -/
theorem C10_nonnumeric_amount_uncaught (w3 : Chain) (ISO_CID : String) :
    create_order w3 ISO_CID
        ⟨some (.jstr "0xCF10217bf58d9690f4857134eF745048Ad833b6E"),
         some (.jstr "abc"), some (.jstr "VIN123456")⟩ =
      (.uncaught "decimal.InvalidOperation", []) ∧
    statusOf (.uncaught "decimal.InvalidOperation") = none ∧
    (∀ m, Outcome.uncaught "decimal.InvalidOperation" ≠ .validationError m) ∧
    (∀ m, Outcome.uncaught "decimal.InvalidOperation" ≠ .chainError m) := by
  refine ⟨?_, rfl, ?_, ?_⟩
  · unfold create_order
    rw [if_neg (by decide)]
    rw [show to_wei_opt (some (.jstr "abc")) .ether =
      .error "decimal.InvalidOperation" from by decide]
  · intro m h
    cases h
  · intro m h
    cases h

/-- C3: every write transition uses, as the nonce of the transaction it
signs, exactly the signer transaction count returned by the fresh lookup
made during that call, with no caching or pre-incrementing; hence two
sequential calls against stub chain states whose counts have not decreased
observe monotonically non-decreasing nonces. -/
theorem C3_fresh_nonce_per_call (w3 w3' : Chain) (n n' : ℕ)
    (hn : w3.get_transaction_count = .ok n)
    (hn' : w3'.get_transaction_count = .ok n')
    (hseq : n ≤ n') :
    (∀ ISO_CID data tx,
      ChainCall.signTransaction tx ∈ (create_order w3 ISO_CID data).2 →
      tx.nonce = n) ∧
    (∀ data tx, ChainCall.signTransaction tx ∈ (deposit_funds w3 data).2 →
      tx.nonce = n) ∧
    (∀ data tx, ChainCall.signTransaction tx ∈ (mark_shipped w3 data).2 →
      tx.nonce = n) ∧
    (∀ data tx, ChainCall.signTransaction tx ∈ (confirm_delivery w3 data).2 →
      tx.nonce = n) ∧
    (∀ ISO_CID data data' tx tx',
      ChainCall.signTransaction tx ∈ (create_order w3 ISO_CID data).2 →
      ChainCall.signTransaction tx' ∈ (create_order w3' ISO_CID data').2 →
      tx.nonce ≤ tx'.nonce) := by
  have hcr : ∀ (c : Chain) (k : ℕ), c.get_transaction_count = .ok k →
      ∀ ISO_CID data tx,
        ChainCall.signTransaction tx ∈ (create_order c ISO_CID data).2 →
        tx.nonce = k := by
    intro c k hk ISO_CID data tx htx
    obtain ⟨a, n0, cid, gp, -, hcount, -, -, htx2⟩ :=
      create_order_signed_tx c ISO_CID data tx htx
    rw [hk] at hcount
    injection hcount with hcount
    subst htx2
    simpa using hcount.symm
  refine ⟨hcr w3 n hn, ?_, ?_, ?_, ?_⟩
  · intro data tx htx
    obtain ⟨n0, est, cid, hcount, -, -, htx2, -⟩ :=
      deposit_funds_signed_tx w3 data tx htx
    rw [hn] at hcount
    injection hcount with hcount
    subst htx2
    simpa using hcount.symm
  · intro data tx htx
    obtain ⟨n0, cid, gp, hcount, -, -, htx2⟩ :=
      mark_shipped_signed_tx w3 data tx htx
    rw [hn] at hcount
    injection hcount with hcount
    subst htx2
    simpa using hcount.symm
  · intro data tx htx
    obtain ⟨n0, cid, gp, hcount, -, -, htx2⟩ :=
      confirm_delivery_signed_tx w3 data tx htx
    rw [hn] at hcount
    injection hcount with hcount
    subst htx2
    simpa using hcount.symm
  · intro ISO_CID data data' tx tx' htx htx'
    rw [hcr w3 n hn ISO_CID data tx htx, hcr w3' n' hn' ISO_CID data' tx' htx']
    exact hseq

/-- Witness for C3: two sequential CreateOrder calls against stub chains
with counts 5 and then 7 sign transactions with nonces 5 and 7. -/
theorem C3_fresh_nonce_per_call_witness :
    ({ chainId := 1, gas := 300000, gasPrice := 20, nonce := 5, value := 0,
       callData := .createOrder (some (.jstr "0xCF")) 1000000000000000000
         (some (.jstr "VIN123456")) "ipfs://cid" } : Tx).nonce = 5 :=
  (C3_fresh_nonce_per_call (stubChain 5) (stubChain 7) 5 7 (by decide)
      (by decide) (by decide)).1
    "cid" ⟨some (.jstr "0xCF"), some (.jnum 1), some (.jstr "VIN123456")⟩ _
    (by decide)

/-- Counterexample for C5 as stated: with caller amount `10 ^ -19` (a
truthy decimal), `create_order` signs a transaction whose encoded amount is
the truncated integer 0, which differs from the caller amount times
`10 ^ 18` (that product is `1 / 10`, not an integer). -/
theorem C5_counterexample_truncated_amount :
    ChainCall.signTransaction
      { chainId := 1, gas := 300000, gasPrice := 20, nonce := 5, value := 0,
        callData := .createOrder (some (.jstr "0xCF")) 0
          (some (.jstr "VIN123456")) "ipfs://cid" } ∈
      (create_order (stubChain 5) "cid"
        ⟨some (.jstr "0xCF"), some (.jnum (mkRat 1 (10 ^ 19))),
         some (.jstr "VIN123456")⟩).2 ∧
    ¬ (((0 : ℤ) : ℚ) = mkRat 1 (10 ^ 19) * 10 ^ 18) := by
  constructor
  · decide
  · intro h
    rw [Rat.mkRat_eq_divInt, Rat.divInt_eq_div] at h
    push_cast at h
    norm_num at h

/-- C5 (amended): for every valid CreateOrder request whose amount field is
the number `q`, the amount placed in the encoded `createOrder` call is the
integer truncation `⌊q * 10 ^ 18⌋` (an `ℤ` value, never a float); whenever
`q * 10 ^ 18` is itself an integer — every amount with at most 18 decimal
places — this is exactly `q * 10 ^ 18`. -/
theorem C5_create_amount_scaled_integer (w3 : Chain) (ISO_CID : String)
    (data : CreateOrderReq) (q : ℚ)
    (hq : data.amount = some (.jnum q)) (tx : Tx)
    (htx : ChainCall.signTransaction tx ∈ (create_order w3 ISO_CID data).2) :
    ∃ a : ℤ,
      tx.callData = .createOrder data.supplier a data.vin ("ipfs://" ++ ISO_CID) ∧
      a = ⌊q * 10 ^ 18⌋ ∧
      ((q * 10 ^ 18).den = 1 → (a : ℚ) = q * 10 ^ 18) := by
  obtain ⟨a, n, cid, gp, hw, -, -, -, htx2⟩ :=
    create_order_signed_tx w3 ISO_CID data tx htx
  rw [hq] at hw
  have hw2 : to_wei_q q .ether = .ok a := hw
  obtain ⟨-, -, ha⟩ := (to_wei_q_eq_ok q .ether a).mp hw2
  have hU : ((EthUnit.ether.unitValue : ℕ) : ℚ) = 10 ^ 18 := by
    norm_num [EthUnit.unitValue]
  rw [hU] at ha
  refine ⟨a, by rw [htx2], ha, ?_⟩
  intro hden
  have hcast : (((q * 10 ^ 18).num : ℤ) : ℚ) = q * 10 ^ 18 := by
    have h := Rat.num_div_den (q * 10 ^ 18)
    rw [hden] at h
    simpa using h
  have hfl : ⌊q * 10 ^ 18⌋ = (q * 10 ^ 18).num := by
    conv_lhs => rw [← hcast]
    rw [Int.floor_intCast]
  rw [ha, hfl, hcast]

/-- Witness for C5 (amended): a CreateOrder of 1 currency unit encodes the
integer amount `⌊1 * 10 ^ 18⌋ = 10 ^ 18`, which here equals the amount
times `10 ^ 18` exactly. -/
theorem C5_create_amount_scaled_integer_witness :
    ∃ a : ℤ,
      ({ chainId := 1, gas := 300000, gasPrice := 20, nonce := 5, value := 0,
         callData := .createOrder (some (.jstr "0xCF")) 1000000000000000000
           (some (.jstr "VIN123456")) "ipfs://cid" } : Tx).callData =
        .createOrder (some (.jstr "0xCF")) a (some (.jstr "VIN123456"))
          ("ipfs://" ++ "cid") ∧
      a = ⌊(1 : ℚ) * 10 ^ 18⌋ ∧
      (((1 : ℚ) * 10 ^ 18).den = 1 → (a : ℚ) = (1 : ℚ) * 10 ^ 18) :=
  C5_create_amount_scaled_integer (stubChain 5) "cid"
    ⟨some (.jstr "0xCF"), some (.jnum 1), some (.jstr "VIN123456")⟩ 1
    (by decide) _ (by decide)

/-- C6: CreateOrder, MarkShipped and ConfirmDelivery build their
transactions with the fixed gas limit 300000 and the adapter's suggested
gas price, while DepositFunds uses the per-call gas estimate obtained for
the `depositFunds(order_id)` call carrying its attached value and the
fixed distinct gas price `to_wei("5", "gwei") = 5000000000`. -/
theorem C6_gas_policy_asymmetry (w3 : Chain) (ISO_CID : String) (g : ℤ)
    (hg : w3.gas_price = .ok g) :
    (∀ data tx, ChainCall.signTransaction tx ∈ (create_order w3 ISO_CID data).2 →
      tx.gas = 300000 ∧ tx.gasPrice = g) ∧
    (∀ data tx, ChainCall.signTransaction tx ∈ (mark_shipped w3 data).2 →
      tx.gas = 300000 ∧ tx.gasPrice = g) ∧
    (∀ data tx, ChainCall.signTransaction tx ∈ (confirm_delivery w3 data).2 →
      tx.gas = 300000 ∧ tx.gasPrice = g) ∧
    (∀ data tx est, w3.estimate_gas data.orderId 500000000000000000 = .ok est →
      ChainCall.signTransaction tx ∈ (deposit_funds w3 data).2 →
      tx.gas = est ∧ tx.gasPrice = 5000000000 ∧
      ChainCall.estimateGas data.orderId 500000000000000000 ∈
        (deposit_funds w3 data).2) ∧
    to_wei (.jstr "5") .gwei = .ok 5000000000 := by
  refine ⟨?_, ?_, ?_, ?_, by decide⟩
  · intro data tx htx
    obtain ⟨a, n, cid, gp, -, -, -, hgp, htx2⟩ :=
      create_order_signed_tx w3 ISO_CID data tx htx
    rw [hg] at hgp
    injection hgp with hgp
    subst htx2
    simpa using hgp.symm
  · intro data tx htx
    obtain ⟨n, cid, gp, -, -, hgp, htx2⟩ := mark_shipped_signed_tx w3 data tx htx
    rw [hg] at hgp
    injection hgp with hgp
    subst htx2
    simpa using hgp.symm
  · intro data tx htx
    obtain ⟨n, cid, gp, -, -, hgp, htx2⟩ := confirm_delivery_signed_tx w3 data tx htx
    rw [hg] at hgp
    injection hgp with hgp
    subst htx2
    simpa using hgp.symm
  · intro data tx est hest htx
    obtain ⟨n, est0, cid, -, hest0, -, htx2, hmem⟩ :=
      deposit_funds_signed_tx w3 data tx htx
    rw [hest] at hest0
    injection hest0 with hest0
    subst htx2
    exact ⟨by simpa using hest0.symm, rfl, hmem⟩

/-- Witness for C6: against the stub chain (suggested price 20, estimate
21000), a MarkShipped transaction uses gas 300000 at price 20 and a
DepositFunds transaction uses gas 21000 at price 5000000000. -/
theorem C6_gas_policy_asymmetry_witness :
    (({ chainId := 1, gas := 300000, gasPrice := 20, nonce := 5, value := 0,
        callData := .markShipped (some (.jnum 1)) } : Tx).gas = 300000 ∧
      ({ chainId := 1, gas := 300000, gasPrice := 20, nonce := 5, value := 0,
         callData := .markShipped (some (.jnum 1)) } : Tx).gasPrice = 20) ∧
    (({ chainId := 1, gas := 21000, gasPrice := 5000000000, nonce := 5,
        value := 500000000000000000,
        callData := .depositFunds (some (.jnum 1)) } : Tx).gas = 21000 ∧
      ({ chainId := 1, gas := 21000, gasPrice := 5000000000, nonce := 5,
         value := 500000000000000000,
         callData := .depositFunds (some (.jnum 1)) } : Tx).gasPrice =
        5000000000 ∧
      ChainCall.estimateGas (some (.jnum 1)) 500000000000000000 ∈
        (deposit_funds (stubChain 5) ⟨some (.jnum 1), some (.jnum 7)⟩).2) :=
  ⟨((C6_gas_policy_asymmetry (stubChain 5) "cid" 20 (by decide)).2.1)
      ⟨some (.jnum 1)⟩ _ (by decide),
   ((C6_gas_policy_asymmetry (stubChain 5) "cid" 20 (by decide)).2.2.2.1)
      ⟨some (.jnum 1), some (.jnum 7)⟩ _ 21000 (by decide) (by decide)⟩

/-- Counterexample for C7 as stated: at a concrete successful read the
returned order snapshot has 7 fields, not 8. -/
theorem C7_counterexample_seven_fields :
    orderViewLength (get_order (stubChain 0) 7).1 = some 7 ∧
    orderViewLength (get_order (stubChain 0) 7).1 ≠ some 8 := by
  constructor
  · decide
  · decide

/-- C7 (amended): for every order id, a successful GetOrder issues exactly
one read-only contract call and returns the order snapshot of 7 fields
(orderId, buyer, supplier, amount, state, vin, isoTs16949Doc) with the
amount converted from smallest units by `fromWei`; any fault during the
read becomes the 500 chain-error shape with the fault message. -/
theorem C7_get_order_snapshot (w3 : Chain) (oid : ℕ) (t : OrderTuple)
    (e : String) :
    (w3.call_orders oid = .ok t →
      get_order w3 oid =
        (.orderView
          [("orderId", .jnum (t.f0 : ℚ)), ("buyer", .jstr t.f1),
           ("supplier", .jstr t.f2), ("amount", .jnum (fromWei t.f3)),
           ("state", .jnum (t.f4 : ℚ)), ("vin", .jstr t.f5),
           ("isoTs16949Doc", .jstr t.f6)],
         [.callOrders oid]) ∧
      orderViewLength (get_order w3 oid).1 = some 7) ∧
    (w3.call_orders oid = .error e →
      get_order w3 oid = (.chainError e, [.callOrders oid]) ∧
      statusOf (get_order w3 oid).1 = some 500) := by
  constructor
  · intro h
    unfold get_order
    rw [h]
    exact ⟨rfl, rfl⟩
  · intro h
    unfold get_order
    rw [h]
    exact ⟨rfl, rfl⟩

/-- Witness for C7 (amended): a successful read against the stub chain
yields the 7-field body with one read call, and a read against the downed
chain yields the 500 shape carrying the node message. -/
theorem C7_get_order_snapshot_witness :
    (get_order (stubChain 0) 7 =
        (.orderView
          [("orderId", .jnum ((7 : ℕ) : ℚ)), ("buyer", .jstr "0xbuyer"),
           ("supplier", .jstr "0xsup"),
           ("amount", .jnum (fromWei 1000000000000000000)),
           ("state", .jnum ((0 : ℕ) : ℚ)), ("vin", .jstr "VIN123456"),
           ("isoTs16949Doc", .jstr "ipfs://cid")],
         [.callOrders 7]) ∧
      orderViewLength (get_order (stubChain 0) 7).1 = some 7) ∧
    (get_order downChain 7 = (.chainError "node down", [.callOrders 7]) ∧
      statusOf (get_order downChain 7).1 = some 500) :=
  ⟨(C7_get_order_snapshot (stubChain 0) 7
      ⟨7, "0xbuyer", "0xsup", 1000000000000000000, 0, "VIN123456", "ipfs://cid"⟩
      "node down").1 rfl,
   (C7_get_order_snapshot downChain 7
      ⟨7, "0xbuyer", "0xsup", 1000000000000000000, 0, "VIN123456", "ipfs://cid"⟩
      "node down").2 rfl⟩

/-- Counterexample for C8 as stated: the exact multiple `2 ^ 256` of the
smallest-unit exponent is nonnegative and has integral product with
`10 ^ 18`, yet `to_wei` raises the eth_utils range `ValueError` instead of
producing a value, so the round trip fails there. -/
theorem C8_counterexample_out_of_range :
    0 ≤ mkRat (2 ^ 256) 1 ∧ (mkRat (2 ^ 256) 1 * 10 ^ 18).den = 1 ∧
    to_wei (.jnum (mkRat (2 ^ 256) 1)) .ether =
      .error "ValueError: Resulting wei value must be between 1 and 2 ** 256 - 1" := by
  refine ⟨by decide, ?_, by decide⟩
  rw [Rat.mkRat_one]
  rw [show ((2 ^ 256 : ℤ) : ℚ) * 10 ^ 18 = ((2 ^ 256 * 10 ^ 18 : ℤ) : ℚ) by
    push_cast
    ring]
  exact Rat.den_intCast _

/-- C8 (amended): for every nonnegative decimal amount `x` that is an exact
multiple of the smallest-unit exponent (so `x * 10 ^ 18` is an integer) and
within the wei range `x * 10 ^ 18 ≤ 2 ^ 256 - 1`, converting `x` to
smallest units with `to_wei` and back with `fromWei` is the identity. -/
theorem C8_unit_conversion_round_trip (x : ℚ) (hx : 0 ≤ x)
    (hden : (x * 10 ^ 18).den = 1) (hbound : x * 10 ^ 18 ≤ 2 ^ 256 - 1) :
    to_wei (.jnum x) .ether = .ok ((x * 10 ^ 18).num) ∧
    fromWei ((x * 10 ^ 18).num) = x := by
  have hcast : (((x * 10 ^ 18).num : ℤ) : ℚ) = x * 10 ^ 18 := by
    have h := Rat.num_div_den (x * 10 ^ 18)
    rw [hden] at h
    simpa using h
  have hU : ((EthUnit.ether.unitValue : ℕ) : ℚ) = 10 ^ 18 := by
    norm_num [EthUnit.unitValue]
  constructor
  · show to_wei_q x .ether = _
    rw [to_wei_q_eq_ok, hU]
    refine ⟨hx, hbound, ?_⟩
    have hfl : ⌊x * 10 ^ 18⌋ = (x * 10 ^ 18).num := by
      conv_lhs => rw [← hcast]
      rw [Int.floor_intCast]
    exact hfl.symm
  · unfold fromWei
    rw [hcast]
    field_simp

/-- Witness for C8 (amended) at the exact in-range amount 1: converting to
10^18 smallest units and back returns 1. -/
theorem C8_unit_conversion_round_trip_witness :
    0 ≤ (1 : ℚ) ∧ ((1 : ℚ) * 10 ^ 18).den = 1 ∧
    (1 : ℚ) * 10 ^ 18 ≤ 2 ^ 256 - 1 ∧
    (to_wei (.jnum 1) .ether = .ok (((1 : ℚ) * 10 ^ 18).num) ∧
      fromWei ((((1 : ℚ) * 10 ^ 18)).num) = 1) :=
  ⟨by norm_num, by norm_num, by norm_num,
   C8_unit_conversion_round_trip 1 (by norm_num) (by norm_num) (by norm_num)⟩

/-- C4: for every write transition, a fault in any chain-interaction phase
(nonce fetch, gas lookup or estimate, chain-id lookup during envelope
construction, signing, submission) is caught and surfaced as the 500
chain-error shape whose body carries the underlying message verbatim; the
trace shows the call sequence stopped at the failing phase with at most a
single submission attempt and the response carries no transaction
identifier. -/
theorem C4_chain_fault_caught_as_500 (w3 : Chain) (ISO_CID : String)
    (e : String) :
    (∀ data a, pyTruthy data.supplier = true → pyTruthy data.amount = true →
      pyTruthy data.vin = true → to_wei_opt data.amount .ether = .ok a →
      ((w3.get_transaction_count = .error e →
        create_order w3 ISO_CID data =
          (.chainError e, [.getTransactionCount])) ∧
      (∀ n, w3.get_transaction_count = .ok n → w3.chain_id = .error e →
        create_order w3 ISO_CID data =
          (.chainError e, [.getTransactionCount, .chainIdLookup])) ∧
      (∀ n cid, w3.get_transaction_count = .ok n → w3.chain_id = .ok cid →
        w3.gas_price = .error e →
        create_order w3 ISO_CID data =
          (.chainError e,
           [.getTransactionCount, .chainIdLookup, .gasPriceLookup])) ∧
      (∀ n cid gp, w3.get_transaction_count = .ok n → w3.chain_id = .ok cid →
        w3.gas_price = .ok gp →
        w3.sign_transaction
          { chainId := cid, gas := 300000, gasPrice := gp, nonce := n,
            value := 0,
            callData := .createOrder data.supplier a data.vin
              ("ipfs://" ++ ISO_CID) } = .error e →
        create_order w3 ISO_CID data =
          (.chainError e,
           [.getTransactionCount, .chainIdLookup, .gasPriceLookup,
            .signTransaction
              { chainId := cid, gas := 300000, gasPrice := gp, nonce := n,
                value := 0,
                callData := .createOrder data.supplier a data.vin
                  ("ipfs://" ++ ISO_CID) }])) ∧
      (∀ n cid gp s, w3.get_transaction_count = .ok n → w3.chain_id = .ok cid →
        w3.gas_price = .ok gp →
        w3.sign_transaction
          { chainId := cid, gas := 300000, gasPrice := gp, nonce := n,
            value := 0,
            callData := .createOrder data.supplier a data.vin
              ("ipfs://" ++ ISO_CID) } = .ok s →
        w3.send_raw_transaction s = .error e →
        create_order w3 ISO_CID data =
          (.chainError e,
           [.getTransactionCount, .chainIdLookup, .gasPriceLookup,
            .signTransaction
              { chainId := cid, gas := 300000, gasPrice := gp, nonce := n,
                value := 0,
                callData := .createOrder data.supplier a data.vin
                  ("ipfs://" ++ ISO_CID) },
            .sendRawTransaction])))) ∧
    (∀ data, pyTruthy data.orderId = true → pyTruthy data.amount = true →
      ((w3.get_transaction_count = .error e →
        deposit_funds w3 data = (.chainError e, [.getTransactionCount])) ∧
      (∀ n, w3.get_transaction_count = .ok n →
        w3.estimate_gas data.orderId 500000000000000000 = .error e →
        deposit_funds w3 data =
          (.chainError e,
           [.getTransactionCount,
            .estimateGas data.orderId 500000000000000000])) ∧
      (∀ n est, w3.get_transaction_count = .ok n →
        w3.estimate_gas data.orderId 500000000000000000 = .ok est →
        w3.chain_id = .error e →
        deposit_funds w3 data =
          (.chainError e,
           [.getTransactionCount,
            .estimateGas data.orderId 500000000000000000,
            .chainIdLookup])) ∧
      (∀ n est cid, w3.get_transaction_count = .ok n →
        w3.estimate_gas data.orderId 500000000000000000 = .ok est →
        w3.chain_id = .ok cid →
        w3.sign_transaction
          { chainId := cid, gas := est, gasPrice := 5000000000, nonce := n,
            value := 500000000000000000,
            callData := .depositFunds data.orderId } = .error e →
        deposit_funds w3 data =
          (.chainError e,
           [.getTransactionCount,
            .estimateGas data.orderId 500000000000000000,
            .chainIdLookup,
            .signTransaction
              { chainId := cid, gas := est, gasPrice := 5000000000, nonce := n,
                value := 500000000000000000,
                callData := .depositFunds data.orderId }])) ∧
      (∀ n est cid s, w3.get_transaction_count = .ok n →
        w3.estimate_gas data.orderId 500000000000000000 = .ok est →
        w3.chain_id = .ok cid →
        w3.sign_transaction
          { chainId := cid, gas := est, gasPrice := 5000000000, nonce := n,
            value := 500000000000000000,
            callData := .depositFunds data.orderId } = .ok s →
        w3.send_raw_transaction s = .error e →
        deposit_funds w3 data =
          (.chainError e,
           [.getTransactionCount,
            .estimateGas data.orderId 500000000000000000,
            .chainIdLookup,
            .signTransaction
              { chainId := cid, gas := est, gasPrice := 5000000000, nonce := n,
                value := 500000000000000000,
                callData := .depositFunds data.orderId },
            .sendRawTransaction])))) ∧
    (∀ data, pyTruthy data.orderId = true →
      ((w3.get_transaction_count = .error e →
        mark_shipped w3 data = (.chainError e, [.getTransactionCount])) ∧
      (∀ n, w3.get_transaction_count = .ok n → w3.chain_id = .error e →
        mark_shipped w3 data =
          (.chainError e, [.getTransactionCount, .chainIdLookup])) ∧
      (∀ n cid, w3.get_transaction_count = .ok n → w3.chain_id = .ok cid →
        w3.gas_price = .error e →
        mark_shipped w3 data =
          (.chainError e,
           [.getTransactionCount, .chainIdLookup, .gasPriceLookup])) ∧
      (∀ n cid gp, w3.get_transaction_count = .ok n → w3.chain_id = .ok cid →
        w3.gas_price = .ok gp →
        w3.sign_transaction
          { chainId := cid, gas := 300000, gasPrice := gp, nonce := n,
            value := 0, callData := .markShipped data.orderId } = .error e →
        mark_shipped w3 data =
          (.chainError e,
           [.getTransactionCount, .chainIdLookup, .gasPriceLookup,
            .signTransaction
              { chainId := cid, gas := 300000, gasPrice := gp, nonce := n,
                value := 0, callData := .markShipped data.orderId }])) ∧
      (∀ n cid gp s, w3.get_transaction_count = .ok n → w3.chain_id = .ok cid →
        w3.gas_price = .ok gp →
        w3.sign_transaction
          { chainId := cid, gas := 300000, gasPrice := gp, nonce := n,
            value := 0, callData := .markShipped data.orderId } = .ok s →
        w3.send_raw_transaction s = .error e →
        mark_shipped w3 data =
          (.chainError e,
           [.getTransactionCount, .chainIdLookup, .gasPriceLookup,
            .signTransaction
              { chainId := cid, gas := 300000, gasPrice := gp, nonce := n,
                value := 0, callData := .markShipped data.orderId },
            .sendRawTransaction])))) ∧
    (∀ data, pyTruthy data.orderId = true →
      ((w3.get_transaction_count = .error e →
        confirm_delivery w3 data = (.chainError e, [.getTransactionCount])) ∧
      (∀ n, w3.get_transaction_count = .ok n → w3.chain_id = .error e →
        confirm_delivery w3 data =
          (.chainError e, [.getTransactionCount, .chainIdLookup])) ∧
      (∀ n cid, w3.get_transaction_count = .ok n → w3.chain_id = .ok cid →
        w3.gas_price = .error e →
        confirm_delivery w3 data =
          (.chainError e,
           [.getTransactionCount, .chainIdLookup, .gasPriceLookup])) ∧
      (∀ n cid gp, w3.get_transaction_count = .ok n → w3.chain_id = .ok cid →
        w3.gas_price = .ok gp →
        w3.sign_transaction
          { chainId := cid, gas := 300000, gasPrice := gp, nonce := n,
            value := 0, callData := .confirmDelivery data.orderId } = .error e →
        confirm_delivery w3 data =
          (.chainError e,
           [.getTransactionCount, .chainIdLookup, .gasPriceLookup,
            .signTransaction
              { chainId := cid, gas := 300000, gasPrice := gp, nonce := n,
                value := 0, callData := .confirmDelivery data.orderId }])) ∧
      (∀ n cid gp s, w3.get_transaction_count = .ok n → w3.chain_id = .ok cid →
        w3.gas_price = .ok gp →
        w3.sign_transaction
          { chainId := cid, gas := 300000, gasPrice := gp, nonce := n,
            value := 0, callData := .confirmDelivery data.orderId } = .ok s →
        w3.send_raw_transaction s = .error e →
        confirm_delivery w3 data =
          (.chainError e,
           [.getTransactionCount, .chainIdLookup, .gasPriceLookup,
            .signTransaction
              { chainId := cid, gas := 300000, gasPrice := gp, nonce := n,
                value := 0, callData := .confirmDelivery data.orderId },
            .sendRawTransaction])))) ∧
    statusOf (.chainError e) = some 500 ∧
    (∀ h, Outcome.chainError e ≠ .success h) := by
  have h05 : to_wei (JsonValue.jstr "0.5") EthUnit.ether =
      Except.ok 500000000000000000 := by decide
  have h5g : to_wei (JsonValue.jstr "5") EthUnit.gwei =
      Except.ok 5000000000 := by decide
  refine ⟨?_, ?_, ?_, ?_, rfl, by intro h hcon; cases hcon⟩
  · intro data a hs ha hv hw
    refine ⟨?_, ?_, ?_, ?_, ?_⟩
    · intro hc
      simp [create_order, hs, ha, hv, hw, hc]
    · intro n hc hcid
      simp [create_order, hs, ha, hv, hw, hc, hcid]
    · intro n cid hc hcid hgp
      simp [create_order, hs, ha, hv, hw, hc, hcid, hgp]
    · intro n cid gp hc hcid hgp hsg
      simp [create_order, hs, ha, hv, hw, hc, hcid, hgp, hsg]
    · intro n cid gp s hc hcid hgp hsg hsr
      simp [create_order, hs, ha, hv, hw, hc, hcid, hgp, hsg, hsr]
  · intro data ho ha
    refine ⟨?_, ?_, ?_, ?_, ?_⟩
    · intro hc
      simp [deposit_funds, ho, ha, h05, hc]
    · intro n hc hest
      simp [deposit_funds, ho, ha, h05, hc, hest]
    · intro n est hc hest hcid
      simp [deposit_funds, ho, ha, h05, hc, hest, hcid]
    · intro n est cid hc hest hcid hsg
      simp [deposit_funds, ho, ha, h05, h5g, hc, hest, hcid, hsg]
    · intro n est cid s hc hest hcid hsg hsr
      simp [deposit_funds, ho, ha, h05, h5g, hc, hest, hcid, hsg, hsr]
  · intro data ho
    refine ⟨?_, ?_, ?_, ?_, ?_⟩
    · intro hc
      simp [mark_shipped, ho, hc]
    · intro n hc hcid
      simp [mark_shipped, ho, hc, hcid]
    · intro n cid hc hcid hgp
      simp [mark_shipped, ho, hc, hcid, hgp]
    · intro n cid gp hc hcid hgp hsg
      simp [mark_shipped, ho, hc, hcid, hgp, hsg]
    · intro n cid gp s hc hcid hgp hsg hsr
      simp [mark_shipped, ho, hc, hcid, hgp, hsg, hsr]
  · intro data ho
    refine ⟨?_, ?_, ?_, ?_, ?_⟩
    · intro hc
      simp [confirm_delivery, ho, hc]
    · intro n hc hcid
      simp [confirm_delivery, ho, hc, hcid]
    · intro n cid hc hcid hgp
      simp [confirm_delivery, ho, hc, hcid, hgp]
    · intro n cid gp hc hcid hgp hsg
      simp [confirm_delivery, ho, hc, hcid, hgp, hsg]
    · intro n cid gp s hc hcid hgp hsg hsr
      simp [confirm_delivery, ho, hc, hcid, hgp, hsg, hsr]

/-- Witness for C4: a downed node fails the nonce fetch of CreateOrder, a
bad key fails its signing step, and a node revert fails the submission of
DepositFunds; each run returns the 500 chain-error shape carrying that
message, with the trace stopped at the failing phase. -/
theorem C4_chain_fault_caught_as_500_witness :
    create_order downChain "cid"
        ⟨some (.jstr "0xCF"), some (.jnum 1), some (.jstr "VIN123456")⟩ =
      (.chainError "node down", [.getTransactionCount]) ∧
    create_order signFailChain "cid"
        ⟨some (.jstr "0xCF"), some (.jnum 1), some (.jstr "VIN123456")⟩ =
      (.chainError "bad key",
       [.getTransactionCount, .chainIdLookup, .gasPriceLookup,
        .signTransaction
          { chainId := 1, gas := 300000, gasPrice := 20, nonce := 5,
            value := 0,
            callData := .createOrder (some (.jstr "0xCF"))
              1000000000000000000 (some (.jstr "VIN123456"))
              ("ipfs://" ++ "cid") }]) ∧
    deposit_funds revertChain ⟨some (.jnum 1), some (.jnum 7)⟩ =
      (.chainError "execution reverted",
       [.getTransactionCount,
        .estimateGas (some (.jnum 1)) 500000000000000000,
        .chainIdLookup,
        .signTransaction
          { chainId := 1, gas := 21000, gasPrice := 5000000000, nonce := 5,
            value := 500000000000000000,
            callData := .depositFunds (some (.jnum 1)) },
        .sendRawTransaction]) :=
  ⟨((C4_chain_fault_caught_as_500 downChain "cid" "node down").1
      ⟨some (.jstr "0xCF"), some (.jnum 1), some (.jstr "VIN123456")⟩
      1000000000000000000 (by decide) (by decide) (by decide) (by decide)).1
      rfl,
   ((C4_chain_fault_caught_as_500 signFailChain "cid" "bad key").1
      ⟨some (.jstr "0xCF"), some (.jnum 1), some (.jstr "VIN123456")⟩
      1000000000000000000 (by decide) (by decide) (by decide)
      (by decide)).2.2.2.1 5 1 20 rfl rfl rfl rfl,
   ((C4_chain_fault_caught_as_500 revertChain "cid" "execution reverted").2.1
      ⟨some (.jnum 1), some (.jnum 7)⟩ (by decide) (by decide)).2.2.2.2
      5 21000 1
      { chainId := 1, gas := 21000, gasPrice := 5000000000, nonce := 5,
        value := 500000000000000000,
        callData := .depositFunds (some (.jnum 1)) }
      rfl rfl rfl rfl rfl⟩
